import Mathlib

/-!
# Verification of the BlendLuxCore interactive viewport controller

Shallow embedding of `src/engine/viewport.py` (`start_session`, `view_update`,
`view_draw`) and `src/nodes/textures/openVDB.py` (`LuxCoreNodeTexOpenVDB.sub_export`).

Modelling conventions:
* The engine object's mutable attributes become the `Engine` structure; each
  Python function becomes a pure Lean function from the old state to the new
  state, a trace of observable effects (`Event`), and an optional uncaught
  exception (`Option Exc`, `none` meaning the call returned normally).
* Every call into an external collaborator (the pyluxcore engine library, the
  scene exporter, the Blender host) that can raise is given its outcome by an
  environment record (`Except Exc _` fields); calls whose failure no part of
  the source handles or the spec discusses are treated as returning normally.
* Python truthiness of object references maps to `Option.isSome`; a caught
  `except` clause maps to consuming the `Except.error` case, and an uncaught
  exception aborts the function, keeping all mutations made before the raise.
-/

namespace BlendLuxCore

/-- Kind of a Python exception: `RuntimeError` (the only class caught by the
stats-refresh handler in `view_draw`) or any other exception class. -/
inductive ExcKind where
  | runtimeError
  | other
deriving DecidableEq, Repr

/-- A Python exception value: its class kind and its `str(error)` message. -/
structure Exc where
  kind : ExcKind
  msg : String
deriving DecidableEq, Repr

/-- Opaque handle to an engine-side render session (`pyluxcore.RenderSession`). -/
abbrev Session := Nat

/-- Opaque handle to a scene exporter instance (`export.Exporter`). -/
abbrev Exporter := Nat

/-- Modelled from the spec: the output pixel dimensions / target surface that a
`FrameBuffer` is built for, derived from the viewport context and scene.  The
`FrameBuffer` class lives in `draw/viewport.py`, which is not under `src/`. -/
structure FBDims where
  width : Nat
  height : Nat
deriving DecidableEq, Repr

/-- Modelled from the spec: the addon-side frame presentation buffer, recording
the output dimensions it was built for (`FrameBuffer` of `draw/viewport.py`,
not under `src/`). -/
structure FrameBuffer where
  builtFor : FBDims
deriving DecidableEq, Repr

/-- Modelled from the spec: `needsReplacement(viewportContext, sceneState) -> bool`
is "true when output pixel dimensions or target surface differ from what the
buffer was built for" (`FrameBuffer.needs_replacement`, not under `src/`). -/
def FrameBuffer.needs_replacement (fb : FrameBuffer) (cur : FBDims) : Bool :=
  fb.builtFor ≠ cur

/-- The mutable attributes of the `RenderEngine` object that the viewport
controller code reads and writes. -/
structure Engine where
  session : Option Session
  exporter : Option Exporter
  framebuffer : Option FrameBuffer
  starting_session : Bool
  viewport_start_time : Option Nat
deriving DecidableEq, Repr

/-- Observable side effects performed by the controller, in program order. -/
inductive Event where
  | updateStats (title msg : String)
  | printMsg (s : String)
  | logTraceback
  | resetDenoiser
  | scheduleStart
  | newFrameBuffer (dims : FBDims)
  | beginSceneEdit
  | parseCamera (props : String)
  | endSceneEdit
  | sleepSettle
  | updateStatsCall
  | waitNewFrame
  | fbUpdate
  | fbDraw
  | tagRedraw
  | addWarning (msg : String)
deriving DecidableEq, Repr

/-- Result of a modelled engine-method call: the engine state after the call,
the effects it performed, and the exception it raised (if any). -/
structure EngineResult where
  engine : Engine
  events : List Event
  raised : Option Exc
deriving DecidableEq, Repr

/-- Outcomes of the external calls made by `start_session`. -/
structure StartEnv where
  startRes : Except Exc Unit
  now : Nat
deriving Repr

/-- Embeds `start_session(engine)` (src/engine/viewport.py, lines 14-32).
Runs `engine.session.Start()`; on success records the wall-clock start time,
on any exception destroys the session reference, resets the exporter, surfaces
the error via `update_stats` and logs the traceback.  In either case the
`starting_session` guard is cleared before returning; nothing escapes the
`try`/`except Exception` block. -/
def start_session (env : StartEnv) (engine : Engine) : EngineResult :=
  match env.startRes with
  | .ok _ =>
      ⟨{ engine with viewport_start_time := some env.now, starting_session := false },
       [], none⟩
  | .error e =>
      ⟨{ engine with session := none, exporter := none, starting_session := false },
       [Event.updateStats "Error: " e.msg, Event.logTraceback], none⟩

/-- Outcomes of the external calls made by `view_update`. -/
structure UpdateEnv where
  exporterRes : Except Exc Exporter
  createSessionRes : Except Exc Session
  getChangesRes : Except Exc Nat
  updateRes : Except Exc Session
  now : Nat
deriving Repr

/-- The separator line `"=" * 50` printed before a new session is created. -/
def separator_line : String :=
  String.mk (List.replicate 50 '=')

/-- Embeds `view_update(engine, context, depsgraph, changes=None)`
(src/engine/viewport.py, lines 35-83).  Returns immediately while the
`starting_session` guard is set; otherwise resets the denoiser of an existing
framebuffer, and either creates a new exporter and session (scheduling the
asynchronous start and setting the guard, with all exceptions caught) or
applies an incremental update to the existing session.  The change bitmask is
truthy iff nonzero. -/
def view_update (env : UpdateEnv) (engine : Engine) (changes : Option Nat) : EngineResult :=
  if engine.starting_session then
    ⟨engine, [], none⟩
  else
    let ev0 : List Event := if engine.framebuffer.isSome then [Event.resetDenoiser] else []
    match engine.session with
    | none =>
      let ev1 := ev0 ++ [Event.printMsg separator_line,
                         Event.printMsg "[Engine/Viewport] New session",
                         Event.updateStats "Creating Render Session..." ""]
      match env.exporterRes with
      | .error e =>
          ⟨{ engine with session := none, exporter := none },
           ev1 ++ [Event.updateStats "Error: " e.msg, Event.logTraceback], none⟩
      | .ok ex =>
        match env.createSessionRes with
        | .error e =>
            ⟨{ engine with session := none, exporter := none },
             ev1 ++ [Event.updateStats "Error: " e.msg, Event.logTraceback], none⟩
        | .ok s =>
            ⟨{ engine with exporter := some ex, session := some s, starting_session := true },
             ev1 ++ [Event.scheduleStart], none⟩
    | some _ =>
      match (match changes with
             | some c => Except.ok c
             | none => env.getChangesRes) with
      | .error e => ⟨engine, ev0, some e⟩
      | .ok c =>
        match env.updateRes with
        | .error e => ⟨engine, ev0, some e⟩
        | .ok s2 =>
          let e1 := { engine with session := some s2 }
          if c ≠ 0 then
            ⟨{ e1 with viewport_start_time := some env.now }, ev0, none⟩
          else
            ⟨e1, ev0, none⟩

/-- Outcomes of the external calls made by `view_draw`. -/
structure DrawEnv where
  ctxDims : FBDims
  camProps : String
  beginRes : Except Exc Unit
  parseRes : Except Exc Unit
  endRes : Except Exc Unit
  statsRes : Except Exc Unit
deriving Repr

/-- Result of the camera/statistics part of `view_draw`, which never touches
the engine attributes: the new value of the module-level `last_cam_str` cache,
the effects performed, and the exception raised (if any). -/
structure CamFrameResult where
  last_cam : String
  events : List Event
  raised : Option Exc
deriving DecidableEq, Repr

/-- The tail of the session branch of `view_draw` (lines 109-115): the
statistics refresh guarded by `except RuntimeError`, then `WaitNewFrame` and
the framebuffer update and draw.  A non-`RuntimeError` exception from
`UpdateStats` propagates and skips the rest. -/
def draw_stats_and_frame (env : DrawEnv) (last_cam : String) : CamFrameResult :=
  match env.statsRes with
  | .ok _ =>
      ⟨last_cam,
       [Event.updateStatsCall, Event.waitNewFrame, Event.fbUpdate, Event.fbDraw], none⟩
  | .error e =>
    match e.kind with
    | .runtimeError =>
        ⟨last_cam,
         [Event.printMsg ("[Engine/Viewport] Error during UpdateStats(): " ++ e.msg),
          Event.waitNewFrame, Event.fbUpdate, Event.fbDraw], none⟩
    | .other => ⟨last_cam, [], some e⟩

/-- The session branch of `view_draw` (lines 95-115): the "hacky camera
update" followed by `draw_stats_and_frame`.  The serialized camera snapshot is
compared against the cache, and when they differ the cache is assigned the new
snapshot (line 101) before `BeginSceneEdit` / `Parse` / `EndSceneEdit` run;
an exception from any of those three calls is not caught.  On success the
fixed settle delay (`time.sleep(0.1)`) follows the edit. -/
def draw_camera_edit (env : DrawEnv) (last_cam : String) : CamFrameResult :=
  if env.camProps ≠ last_cam then
    match env.beginRes with
    | .error e => ⟨env.camProps, [], some e⟩
    | .ok _ =>
      match env.parseRes with
      | .error e => ⟨env.camProps, [Event.beginSceneEdit], some e⟩
      | .ok _ =>
        match env.endRes with
        | .error e =>
            ⟨env.camProps, [Event.beginSceneEdit, Event.parseCamera env.camProps], some e⟩
        | .ok _ =>
          let r := draw_stats_and_frame env env.camProps
          ⟨r.last_cam,
           [Event.beginSceneEdit, Event.parseCamera env.camProps, Event.endSceneEdit,
            Event.sleepSettle] ++ r.events, r.raised⟩
  else
    draw_stats_and_frame env last_cam

/-- The framebuffer-replacement test at line 90: true when no framebuffer
exists (Python falsiness of `engine.framebuffer`) or when the existing one
reports `needs_replacement` for the current context and scene. -/
def needs_new_framebuffer (engine : Engine) (dims : FBDims) : Bool :=
  match engine.framebuffer with
  | none => true
  | some fb => fb.needs_replacement dims

/-- The effects of the framebuffer-replacement step at lines 90-92. -/
def framebuffer_events (engine : Engine) (dims : FBDims) : List Event :=
  if needs_new_framebuffer engine dims then
    [Event.printMsg "new framebuffer", Event.newFrameBuffer dims]
  else []

/-- Result of `view_draw`: the engine state, the new value of the module-level
`last_cam_str` cache, the effects, and the exception raised (if any). -/
structure DrawResult where
  engine : Engine
  last_cam : String
  events : List Event
  raised : Option Exc
deriving DecidableEq, Repr

/-- The framebuffer-replacement step at lines 90-92 as a state transformer:
the engine after line 92, with a fresh `FrameBuffer` built for the current
dimensions when line 90's test fired. -/
def fb_step (engine : Engine) (dims : FBDims) : Engine :=
  if needs_new_framebuffer engine dims then
    { engine with framebuffer := some ⟨dims⟩ }
  else engine

/-- The body of `view_draw` after the framebuffer step (lines 94-116): with a
session present (Python truthiness) and the guard clear, the camera edit and
frame part runs; otherwise only the unconditional `tag_redraw` of line 116. -/
def draw_body (env : DrawEnv) (e1 : Engine) (last_cam : String) : CamFrameResult :=
  if e1.session.isSome && !e1.starting_session then
    let r := draw_camera_edit env last_cam
    ⟨r.last_cam, r.events ++ (if r.raised.isNone then [Event.tagRedraw] else []), r.raised⟩
  else
    ⟨last_cam, [Event.tagRedraw], none⟩

/-- Embeds `view_draw(engine, context, depsgraph)`
(src/engine/viewport.py, lines 87-116).  Takes and returns the module-level
`last_cam_str` cache explicitly.  Replaces the framebuffer when absent or when
`needs_replacement` holds (`fb_step`); then runs `draw_body`: the camera-edit
and frame part when a session is present and the guard is clear, and the
`tag_redraw` of line 116 whenever no uncaught exception aborts the call. -/
def view_draw (env : DrawEnv) (engine : Engine) (last_cam_str : String) : DrawResult :=
  let e1 := fb_step engine env.ctxDims
  let r := draw_body env e1 last_cam_str
  ⟨e1, r.last_cam, framebuffer_events engine env.ctxDims ++ r.events, r.raised⟩

/-- A value in a LuxCore property definition dictionary. -/
inductive PropVal where
  | str (v : String)
  | int (v : Int)
  | intList (v : List Int)
  | ratList (v : List Rat)
deriving DecidableEq, Repr

/-- The UI-visible state of a `LuxCoreNodeTexOpenVDB` node that `sub_export`
reads: the node name, its node tree's name (`self.id_data.name`), the domain
object pointer (none when unset), the file path and the grid properties. -/
structure OpenVDBNode where
  name : String
  id_data_name : String
  domain : Option Nat
  file_path : String
  precision : String
  nx : Int
  ny : Int
  nz : Int
deriving DecidableEq, Repr

/-- Outcomes of the host-side calls made by `sub_export`: `mainRes` is the
mapping transformation computed from the evaluated domain object by the matrix
arithmetic of lines 120-146 (host float math, abstracted as an opaque list),
and `abspath` is `bpy.path.abspath(self.file_path)`. -/
structure VDBEnv where
  mainRes : Except Exc (List Rat)
  abspath : String
deriving Repr

/-- Result of `sub_export`: the returned properties (none when an exception
aborts the call), the effects, and the exception raised (if any). -/
structure VDBResult where
  props : Option (String × List (String × PropVal))
  events : List Event
  raised : Option Exc
deriving DecidableEq, Repr

/-- Modelled from the spec: `create_props` (defined in `nodes/base.py`, which
is not under `src/`) packages a definition dictionary as the exported LuxCore
properties of this texture node under its LuxCore name and returns them. -/
def create_props (definitions : List (String × PropVal)) (luxcore_name : String) :
    String × List (String × PropVal) :=
  (luxcore_name, definitions)

/-- Embeds `LuxCoreNodeTexOpenVDB.sub_export`
(src/nodes/textures/openVDB.py, lines 108-162).  With no domain selected or an
empty file path it logs a warning naming the node and its tree and returns
constant-black `constfloat3` properties; otherwise it builds the
`densitygrid` definitions from the node's grid properties and the computed
mapping transformation. -/
def sub_export (env : VDBEnv) (node : OpenVDBNode) (output_socket_name : String)
    (luxcore_name : String) : VDBResult :=
  if node.domain.isNone || node.file_path = "" then
    let error := "No Domain object selected."
    let msg := "Node \"" ++ node.name ++ "\" in tree \"" ++ node.id_data_name ++ "\": " ++ error
    ⟨some (create_props [("type", PropVal.str "constfloat3"),
                         ("value", PropVal.intList [0, 0, 0])] luxcore_name),
     [Event.addWarning msg], none⟩
  else
    match env.mainRes with
    | .error e => ⟨none, [], some e⟩
    | .ok mt =>
        ⟨some (create_props
          [("type", PropVal.str "densitygrid"),
           ("wrap", PropVal.str "black"),
           ("storage", PropVal.str node.precision),
           ("nx", PropVal.int node.nx),
           ("ny", PropVal.int node.ny),
           ("nz", PropVal.int node.nz),
           ("openvdb.file", PropVal.str env.abspath),
           ("openvdb.grid", PropVal.str output_socket_name),
           ("mapping.type", PropVal.str "globalmapping3d"),
           ("mapping.transformation", PropVal.ratList mt)] luxcore_name),
         [], none⟩

/-! ## Sample inputs used by the witnesses and counterexamples -/

/-- An engine with no session, no exporter and no framebuffer (state `Idle`). -/
def sampleEngineIdle : Engine := ⟨none, none, none, false, none⟩

/-- An engine whose asynchronous start is in flight (guard flag set). -/
def sampleEngineStarting : Engine := ⟨some 1, some 1, none, true, none⟩

/-- An engine with a running session and a framebuffer built for 640x480. -/
def sampleEngineRunning : Engine := ⟨some 1, some 1, some ⟨⟨640, 480⟩⟩, false, some 5⟩

/-- An engine with a running session whose framebuffer was built for 320x240. -/
def sampleEngineOldFB : Engine := ⟨some 1, some 1, some ⟨⟨320, 240⟩⟩, false, some 5⟩

/-- An update environment in which every external call succeeds. -/
def sampleUpdateEnvOk : UpdateEnv := ⟨.ok 7, .ok 3, .ok 0, .ok 3, 42⟩

/-- An update environment in which building the exporter raises. -/
def sampleUpdateEnvFail : UpdateEnv := ⟨.error ⟨.other, "no scene"⟩, .ok 3, .ok 0, .ok 3, 42⟩

/-- A start environment in which `session.Start()` succeeds at time 99. -/
def sampleStartEnvOk : StartEnv := ⟨.ok (), 99⟩

/-- A start environment in which `session.Start()` raises. -/
def sampleStartEnvFail : StartEnv := ⟨.error ⟨.other, "warmup failed"⟩, 99⟩

/-- A draw environment in which every engine call succeeds; the camera
snapshot serializes to "cam1" and the viewport is 640x480. -/
def sampleDrawEnvOk : DrawEnv := ⟨⟨640, 480⟩, "cam1", .ok (), .ok (), .ok (), .ok ()⟩

/-- A draw environment in which `BeginSceneEdit` raises. -/
def sampleDrawEnvEditFail : DrawEnv :=
  ⟨⟨640, 480⟩, "cam1", .error ⟨.other, "edit fail"⟩, .ok (), .ok (), .ok ()⟩

/-- A draw environment in which `UpdateStats` raises a `RuntimeError`. -/
def sampleDrawEnvStatsRT : DrawEnv :=
  ⟨⟨640, 480⟩, "cam1", .ok (), .ok (), .ok (), .error ⟨.runtimeError, "stats down"⟩⟩

/-- A draw environment in which `UpdateStats` raises a non-`RuntimeError`. -/
def sampleDrawEnvStatsOther : DrawEnv :=
  ⟨⟨640, 480⟩, "cam1", .ok (), .ok (), .ok (), .error ⟨.other, "oom"⟩⟩

/-- An OpenVDB environment whose host-side matrix computation succeeds. -/
def sampleVDBEnv : VDBEnv := ⟨.ok [], "/abs/smoke.vdb"⟩

/-- An OpenVDB node with no domain object selected. -/
def sampleVDBNode : OpenVDBNode :=
  ⟨"OpenVDB File", "Shader Nodetree", none, "smoke.vdb", "half", 32, 32, 32⟩

/-! ## Claims -/

/-- C1: for every scene-change event (call of `view_update`) arriving while
the `starting_session` guard flag is true, the controller returns immediately
and performs zero session mutations: the whole engine state (session,
exporter, framebuffer, render start timestamp) is unchanged, no effects are
performed, and nothing is raised. -/
theorem view_update_guard_drop (env : UpdateEnv) (engine : Engine) (changes : Option Nat)
    (h : engine.starting_session = true) :
    view_update env engine changes = ⟨engine, [], none⟩ := by
  simp [view_update, h]

/-- Witness for C1 at a concrete engine and environment. -/
theorem view_update_guard_drop_witness :
    sampleEngineStarting.starting_session = true ∧
    view_update sampleUpdateEnvOk sampleEngineStarting none = ⟨sampleEngineStarting, [], none⟩ :=
  ⟨rfl, view_update_guard_drop sampleUpdateEnvOk sampleEngineStarting none rfl⟩

/-- C2: if, during the Idle-to-Starting transition of `view_update` (no
session present, guard clear), building the exporter or creating the session
raises, then afterwards the session is `none`, the exporter is `none`, a
non-empty error message is surfaced via `update_stats`, and the exception
does not propagate out of `view_update`. -/
theorem view_update_create_failure (env : UpdateEnv) (engine : Engine) (changes : Option Nat)
    (e : Exc)
    (hguard : engine.starting_session = false)
    (hsess : engine.session = none)
    (hfail : env.exporterRes = .error e ∨
             (∃ ex, env.exporterRes = .ok ex ∧ env.createSessionRes = .error e)) :
    (view_update env engine changes).engine.session = none ∧
    (view_update env engine changes).engine.exporter = none ∧
    Event.updateStats "Error: " e.msg ∈ (view_update env engine changes).events ∧
    ("Error: " ++ e.msg) ≠ "" ∧
    (view_update env engine changes).raised = none := by
  have hne : ("Error: " ++ e.msg) ≠ "" := by
    intro h
    have hl := congrArg String.length h
    rw [String.length_append] at hl
    have h7 : String.length "Error: " = 7 := rfl
    have h0 : String.length "" = 0 := rfl
    rw [h7, h0] at hl
    omega
  rcases hfail with hex | ⟨ex, hex, hcs⟩
  · cases hfb : engine.framebuffer.isSome <;>
      simp [view_update, hguard, hsess, hex, hfb, hne]
  · cases hfb : engine.framebuffer.isSome <;>
      simp [view_update, hguard, hsess, hex, hcs, hfb, hne]

/-- Witness for C2 at a concrete engine and environment in which building the
exporter raises. -/
theorem view_update_create_failure_witness :
    sampleEngineIdle.starting_session = false ∧ sampleEngineIdle.session = none ∧
    sampleUpdateEnvFail.exporterRes = .error ⟨.other, "no scene"⟩ ∧
    ((view_update sampleUpdateEnvFail sampleEngineIdle none).engine.session = none ∧
     (view_update sampleUpdateEnvFail sampleEngineIdle none).engine.exporter = none ∧
     Event.updateStats "Error: " (Exc.mk .other "no scene").msg ∈
       (view_update sampleUpdateEnvFail sampleEngineIdle none).events ∧
     ("Error: " ++ (Exc.mk .other "no scene").msg) ≠ "" ∧
     (view_update sampleUpdateEnvFail sampleEngineIdle none).raised = none) :=
  ⟨rfl, rfl, rfl,
   view_update_create_failure sampleUpdateEnvFail sampleEngineIdle none
     ⟨.other, "no scene"⟩ rfl rfl (Or.inl rfl)⟩

/-- C3: if the asynchronous `session.Start()` fails with any exception,
`start_session` sets the session to `none`, resets the exporter to `none`,
surfaces an error via `update_stats`, logs the traceback, lets nothing
propagate, and clears the `starting_session` guard before returning. -/
theorem start_session_failure (env : StartEnv) (engine : Engine) (e : Exc)
    (h : env.startRes = .error e) :
    (start_session env engine).engine.session = none ∧
    (start_session env engine).engine.exporter = none ∧
    (start_session env engine).engine.starting_session = false ∧
    Event.updateStats "Error: " e.msg ∈ (start_session env engine).events ∧
    Event.logTraceback ∈ (start_session env engine).events ∧
    (start_session env engine).raised = none := by
  simp [start_session, h]

/-- Witness for C3 at a concrete engine and environment in which the start
call raises. -/
theorem start_session_failure_witness :
    sampleStartEnvFail.startRes = .error ⟨.other, "warmup failed"⟩ ∧
    ((start_session sampleStartEnvFail sampleEngineStarting).engine.session = none ∧
     (start_session sampleStartEnvFail sampleEngineStarting).engine.exporter = none ∧
     (start_session sampleStartEnvFail sampleEngineStarting).engine.starting_session = false ∧
     Event.updateStats "Error: " (Exc.mk .other "warmup failed").msg ∈
       (start_session sampleStartEnvFail sampleEngineStarting).events ∧
     Event.logTraceback ∈ (start_session sampleStartEnvFail sampleEngineStarting).events ∧
     (start_session sampleStartEnvFail sampleEngineStarting).raised = none) :=
  ⟨rfl, start_session_failure sampleStartEnvFail sampleEngineStarting
    ⟨.other, "warmup failed"⟩ rfl⟩

/-! ## Helper lemmas about `view_draw` -/

lemma fb_step_session (engine : Engine) (dims : FBDims) :
    (fb_step engine dims).session = engine.session := by
  unfold fb_step; split <;> rfl

lemma fb_step_starting (engine : Engine) (dims : FBDims) :
    (fb_step engine dims).starting_session = engine.starting_session := by
  unfold fb_step; split <;> rfl

lemma draw_body_eq_pos (env : DrawEnv) (e1 : Engine) (cam : String)
    (hc : (e1.session.isSome && !e1.starting_session) = true) :
    draw_body env e1 cam =
      ⟨(draw_camera_edit env cam).last_cam,
       (draw_camera_edit env cam).events ++
         (if (draw_camera_edit env cam).raised.isNone then [Event.tagRedraw] else []),
       (draw_camera_edit env cam).raised⟩ := by
  simp [draw_body, hc]

lemma draw_body_eq_neg (env : DrawEnv) (e1 : Engine) (cam : String)
    (hc : ¬((e1.session.isSome && !e1.starting_session) = true)) :
    draw_body env e1 cam = ⟨cam, [Event.tagRedraw], none⟩ := by
  simp [draw_body, hc]

lemma draw_body_ends_tagRedraw (env : DrawEnv) (e1 : Engine) (cam : String)
    (h : (draw_body env e1 cam).raised = none) :
    ∃ l, (draw_body env e1 cam).events = l ++ [Event.tagRedraw] := by
  by_cases hc : (e1.session.isSome && !e1.starting_session) = true
  · rw [draw_body_eq_pos env e1 cam hc] at h ⊢
    exact ⟨(draw_camera_edit env cam).events, by simp_all⟩
  · rw [draw_body_eq_neg env e1 cam hc]
    exact ⟨[], rfl⟩

/-- C4: in the redraw path with a session present and the guard clear, if the
serialized camera snapshot equals the previous frame's snapshot, no scene-edit
call is issued; if the two differ, exactly one `BeginSceneEdit` /
`Parse(camera props)` / `EndSceneEdit` sequence is issued, followed by the
fixed settle delay, before the statistics refresh and the frame wait. -/
theorem view_draw_camera_edit_once (env : DrawEnv) (engine : Engine) (cam : String)
    (hs : engine.session.isSome = true) (hg : engine.starting_session = false)
    (hb : env.beginRes = .ok ()) (hp : env.parseRes = .ok ()) (he : env.endRes = .ok ())
    (hst : env.statsRes = .ok ()) :
    (env.camProps = cam →
       (view_draw env engine cam).events =
         framebuffer_events engine env.ctxDims ++
           [Event.updateStatsCall, Event.waitNewFrame, Event.fbUpdate, Event.fbDraw,
            Event.tagRedraw]) ∧
    (env.camProps ≠ cam →
       (view_draw env engine cam).events =
         framebuffer_events engine env.ctxDims ++
           [Event.beginSceneEdit, Event.parseCamera env.camProps, Event.endSceneEdit,
            Event.sleepSettle, Event.updateStatsCall, Event.waitNewFrame, Event.fbUpdate,
            Event.fbDraw, Event.tagRedraw]) := by
  have hcond : ((fb_step engine env.ctxDims).session.isSome &&
      !(fb_step engine env.ctxDims).starting_session) = true := by
    rw [fb_step_session, fb_step_starting, hs, hg]; rfl
  constructor
  · intro hc
    simp [view_draw, draw_body, hcond, draw_camera_edit, hc, draw_stats_and_frame, hst]
  · intro hc
    simp [view_draw, draw_body, hcond, draw_camera_edit, hc, hb, hp, he,
          draw_stats_and_frame, hst]

/-- Witness for C4 at a concrete environment whose camera snapshot differs
from the cached one. -/
theorem view_draw_camera_edit_once_witness :
    sampleDrawEnvOk.camProps ≠ "" ∧
    (view_draw sampleDrawEnvOk sampleEngineRunning "").events =
      framebuffer_events sampleEngineRunning sampleDrawEnvOk.ctxDims ++
        [Event.beginSceneEdit, Event.parseCamera sampleDrawEnvOk.camProps, Event.endSceneEdit,
         Event.sleepSettle, Event.updateStatsCall, Event.waitNewFrame, Event.fbUpdate,
         Event.fbDraw, Event.tagRedraw] :=
  ⟨by decide,
   (view_draw_camera_edit_once sampleDrawEnvOk sampleEngineRunning "" rfl rfl rfl rfl rfl
      rfl).2 (by decide)⟩

/-- C5 counterexample: the claim's second clause ("`tag_redraw` is called
unconditionally at the end of every `view_draw` invocation") fails at a
concrete input: with a session present and `BeginSceneEdit` raising, the
exception propagates out of `view_draw` before line 116 runs, so no
`tag_redraw` is requested. -/
theorem view_draw_tag_redraw_skipped_on_edit_failure :
    Event.tagRedraw ∉ (view_draw sampleDrawEnvEditFail sampleEngineRunning "").events ∧
    (view_draw sampleDrawEnvEditFail sampleEngineRunning "").raised =
      some ⟨.other, "edit fail"⟩ := by
  decide

/-- C5 (amended): every `view_draw` call with no session present does not
raise and still requests a UI redraw via `tag_redraw`; moreover `tag_redraw`
is called at the end of every `view_draw` invocation that returns without an
uncaught exception. -/
theorem view_draw_no_session_redraw (env : DrawEnv) (engine : Engine) (cam : String) :
    (engine.session = none →
       (view_draw env engine cam).raised = none ∧
       Event.tagRedraw ∈ (view_draw env engine cam).events) ∧
    ((view_draw env engine cam).raised = none →
       ∃ l, (view_draw env engine cam).events = l ++ [Event.tagRedraw]) := by
  constructor
  · intro hsess
    have hc : ¬(((fb_step engine env.ctxDims).session.isSome &&
        !(fb_step engine env.ctxDims).starting_session) = true) := by
      rw [fb_step_session, hsess]; simp
    have hbody := draw_body_eq_neg env (fb_step engine env.ctxDims) cam hc
    constructor
    · show (draw_body env (fb_step engine env.ctxDims) cam).raised = none
      rw [hbody]
    · show Event.tagRedraw ∈ framebuffer_events engine env.ctxDims ++
        (draw_body env (fb_step engine env.ctxDims) cam).events
      rw [hbody]; simp
  · intro hr
    have hr' : (draw_body env (fb_step engine env.ctxDims) cam).raised = none := hr
    obtain ⟨l, hl⟩ := draw_body_ends_tagRedraw env (fb_step engine env.ctxDims) cam hr'
    refine ⟨framebuffer_events engine env.ctxDims ++ l, ?_⟩
    show framebuffer_events engine env.ctxDims ++
      (draw_body env (fb_step engine env.ctxDims) cam).events = _
    rw [hl, List.append_assoc]

/-- Witness for C5 at a concrete sessionless engine. -/
theorem view_draw_no_session_redraw_witness :
    sampleEngineIdle.session = none ∧
    ((view_draw sampleDrawEnvOk sampleEngineIdle "").raised = none ∧
     Event.tagRedraw ∈ (view_draw sampleDrawEnvOk sampleEngineIdle "").events) ∧
    (∃ l, (view_draw sampleDrawEnvOk sampleEngineIdle "").events =
       l ++ [Event.tagRedraw]) :=
  ⟨rfl,
   (view_draw_no_session_redraw sampleDrawEnvOk sampleEngineIdle "").1 rfl,
   (view_draw_no_session_redraw sampleDrawEnvOk sampleEngineIdle "").2
     ((view_draw_no_session_redraw sampleDrawEnvOk sampleEngineIdle "").1 rfl).1⟩

lemma draw_stats_and_frame_no_newFB (env : DrawEnv) (cam : String) (d : FBDims) :
    Event.newFrameBuffer d ∉ (draw_stats_and_frame env cam).events := by
  rcases hsr : env.statsRes with e | u
  · rcases hk : e.kind <;> simp [draw_stats_and_frame, hsr, hk]
  · simp [draw_stats_and_frame, hsr]

lemma draw_camera_edit_no_newFB (env : DrawEnv) (cam : String) (d : FBDims) :
    Event.newFrameBuffer d ∉ (draw_camera_edit env cam).events := by
  by_cases hc : env.camProps = cam
  · have heq : draw_camera_edit env cam = draw_stats_and_frame env cam := by
      simp [draw_camera_edit, hc]
    rw [heq]
    exact draw_stats_and_frame_no_newFB env cam d
  · rcases hb : env.beginRes with e | u
    · simp [draw_camera_edit, hc, hb]
    · rcases hp : env.parseRes with e | u
      · simp [draw_camera_edit, hc, hb, hp]
      · rcases he : env.endRes with e | u
        · simp [draw_camera_edit, hc, hb, hp, he]
        · simp [draw_camera_edit, hc, hb, hp, he,
                draw_stats_and_frame_no_newFB env env.camProps d]

lemma draw_body_no_newFB (env : DrawEnv) (e1 : Engine) (cam : String) (d : FBDims) :
    Event.newFrameBuffer d ∉ (draw_body env e1 cam).events := by
  by_cases hc : (e1.session.isSome && !e1.starting_session) = true
  · rw [draw_body_eq_pos env e1 cam hc]
    cases hn : (draw_camera_edit env cam).raised.isNone <;>
      simp [hn, draw_camera_edit_no_newFB env cam d]
  · rw [draw_body_eq_neg env e1 cam hc]
    simp

lemma view_draw_newFB_mem (env : DrawEnv) (engine : Engine) (cam : String) (d : FBDims) :
    Event.newFrameBuffer d ∈ (view_draw env engine cam).events ↔
      (needs_new_framebuffer engine env.ctxDims = true ∧ d = env.ctxDims) := by
  show Event.newFrameBuffer d ∈
      framebuffer_events engine env.ctxDims ++
        (draw_body env (fb_step engine env.ctxDims) cam).events ↔ _
  rw [List.mem_append]
  constructor
  · rintro (h | h)
    · revert h
      unfold framebuffer_events
      cases hn : needs_new_framebuffer engine env.ctxDims <;> simp [hn]
    · exact absurd h (draw_body_no_newFB env _ cam d)
  · rintro ⟨hn, rfl⟩
    left
    simp [framebuffer_events, hn]

lemma view_draw_engine_eq (env : DrawEnv) (engine : Engine) (cam : String) :
    (view_draw env engine cam).engine = fb_step engine env.ctxDims := rfl

lemma fb_step_framebuffer_builtFor (engine : Engine) (dims : FBDims) (fb : FrameBuffer)
    (hfb : engine.framebuffer = some fb) :
    ∃ fb', (fb_step engine dims).framebuffer = some fb' ∧ fb'.builtFor = dims := by
  unfold fb_step
  cases hn : needs_new_framebuffer engine dims
  · refine ⟨fb, by simp [hn, hfb], ?_⟩
    have hrep : fb.needs_replacement dims = false := by
      unfold needs_new_framebuffer at hn
      rw [hfb] at hn
      exact hn
    simpa [FrameBuffer.needs_replacement] using hrep
  · exact ⟨⟨dims⟩, by simp [hn], rfl⟩

lemma needs_new_framebuffer_of_builtFor (engine : Engine) (dims : FBDims) (fb : FrameBuffer)
    (h1 : engine.framebuffer = some fb) (h2 : fb.builtFor = dims) :
    needs_new_framebuffer engine dims = false := by
  unfold needs_new_framebuffer
  rw [h1]
  simp [FrameBuffer.needs_replacement, h2]

/-- C6: in the redraw path with a framebuffer present, the framebuffer is
replaced (a new `FrameBuffer` constructed) if and only if `needs_replacement`
returns true for the current viewport context and scene; and once such a call
has run, a subsequent redraw call with unchanged output dimensions does not
replace it again. -/
theorem view_draw_framebuffer_replacement (env env2 : DrawEnv) (engine : Engine)
    (cam cam2 : String) (fb : FrameBuffer)
    (hfb : engine.framebuffer = some fb) :
    ((Event.newFrameBuffer env.ctxDims ∈ (view_draw env engine cam).events) ↔
       fb.needs_replacement env.ctxDims = true) ∧
    (env2.ctxDims = env.ctxDims →
       ∀ d, Event.newFrameBuffer d ∉
         (view_draw env2 (view_draw env engine cam).engine cam2).events) := by
  have hnn : needs_new_framebuffer engine env.ctxDims = fb.needs_replacement env.ctxDims := by
    unfold needs_new_framebuffer
    rw [hfb]
  constructor
  · rw [view_draw_newFB_mem]
    constructor
    · rintro ⟨h, _⟩
      rw [← hnn]
      exact h
    · intro h
      exact ⟨by rw [hnn]; exact h, rfl⟩
  · intro hdims d
    obtain ⟨fb', hfb', hbuilt⟩ := fb_step_framebuffer_builtFor engine env.ctxDims fb hfb
    rw [view_draw_engine_eq, view_draw_newFB_mem]
    rintro ⟨hn, _⟩
    have hnone := needs_new_framebuffer_of_builtFor (fb_step engine env.ctxDims) env2.ctxDims
      fb' hfb' (by rw [hbuilt, hdims])
    rw [hnone] at hn
    exact Bool.false_ne_true hn

/-- Witness for C6 at a concrete engine whose framebuffer was built for
320x240 while the viewport is 640x480 (so `needs_replacement` holds), followed
by a second redraw with the same dimensions. -/
theorem view_draw_framebuffer_replacement_witness :
    sampleEngineOldFB.framebuffer = some ⟨⟨320, 240⟩⟩ ∧
    ((Event.newFrameBuffer sampleDrawEnvOk.ctxDims ∈
        (view_draw sampleDrawEnvOk sampleEngineOldFB "cam0").events) ↔
      FrameBuffer.needs_replacement ⟨⟨320, 240⟩⟩ sampleDrawEnvOk.ctxDims = true) ∧
    (∀ d, Event.newFrameBuffer d ∉
       (view_draw sampleDrawEnvOk
         (view_draw sampleDrawEnvOk sampleEngineOldFB "cam0").engine "cam1").events) :=
  ⟨rfl,
   (view_draw_framebuffer_replacement sampleDrawEnvOk sampleDrawEnvOk sampleEngineOldFB
      "cam0" "cam1" ⟨⟨320, 240⟩⟩ rfl).1,
   (view_draw_framebuffer_replacement sampleDrawEnvOk sampleDrawEnvOk sampleEngineOldFB
      "cam0" "cam1" ⟨⟨320, 240⟩⟩ rfl).2 rfl⟩

/-- C7 counterexample: the claim says any error raised by `UpdateStats` is
caught, but line 111 catches only `RuntimeError`.  At a concrete input where
`UpdateStats` raises a non-`RuntimeError` exception, the exception propagates
out of `view_draw` and neither `WaitNewFrame` nor the frame pull happens. -/
theorem view_draw_stats_other_error_propagates :
    (view_draw sampleDrawEnvStatsOther sampleEngineRunning "cam1").raised =
      some ⟨.other, "oom"⟩ ∧
    Event.waitNewFrame ∉ (view_draw sampleDrawEnvStatsOther sampleEngineRunning "cam1").events ∧
    Event.fbUpdate ∉ (view_draw sampleDrawEnvStatsOther sampleEngineRunning "cam1").events := by
  decide

/-- C7 (amended): in the redraw path with a session present, a `RuntimeError`
raised by the statistics refresh (`UpdateStats`) is caught and logged and does
not propagate; the render loop continues past it, still performing the frame
wait (`WaitNewFrame`) and the frame pull into the `FrameBuffer` in that same
invocation.  (A non-`RuntimeError` exception is not caught.) -/
theorem view_draw_stats_runtime_error_swallowed (env : DrawEnv) (engine : Engine)
    (cam : String) (e : Exc)
    (hs : engine.session.isSome = true) (hg : engine.starting_session = false)
    (hb : env.beginRes = .ok ()) (hp : env.parseRes = .ok ()) (he : env.endRes = .ok ())
    (hst : env.statsRes = .error e) (hk : e.kind = .runtimeError) :
    (view_draw env engine cam).raised = none ∧
    Event.printMsg ("[Engine/Viewport] Error during UpdateStats(): " ++ e.msg) ∈
      (view_draw env engine cam).events ∧
    Event.waitNewFrame ∈ (view_draw env engine cam).events ∧
    Event.fbUpdate ∈ (view_draw env engine cam).events ∧
    (∃ l, (view_draw env engine cam).events = l ++ [Event.tagRedraw]) := by
  have hcond : ((fb_step engine env.ctxDims).session.isSome &&
      !(fb_step engine env.ctxDims).starting_session) = true := by
    rw [fb_step_session, fb_step_starting, hs, hg]; rfl
  have hr : (view_draw env engine cam).raised = none := by
    show (draw_body env (fb_step engine env.ctxDims) cam).raised = none
    rw [draw_body_eq_pos env (fb_step engine env.ctxDims) cam hcond]
    by_cases hc : env.camProps = cam <;>
      simp [draw_camera_edit, hc, hb, hp, he, draw_stats_and_frame, hst, hk]
  refine ⟨hr, ?_, ?_, ?_, ?_⟩
  · by_cases hc : env.camProps = cam <;>
      simp [view_draw, draw_body, hcond, draw_camera_edit, hc, hb, hp, he,
            draw_stats_and_frame, hst, hk]
  · by_cases hc : env.camProps = cam <;>
      simp [view_draw, draw_body, hcond, draw_camera_edit, hc, hb, hp, he,
            draw_stats_and_frame, hst, hk]
  · by_cases hc : env.camProps = cam <;>
      simp [view_draw, draw_body, hcond, draw_camera_edit, hc, hb, hp, he,
            draw_stats_and_frame, hst, hk]
  · have hr' : (draw_body env (fb_step engine env.ctxDims) cam).raised = none := hr
    obtain ⟨l, hl⟩ := draw_body_ends_tagRedraw env (fb_step engine env.ctxDims) cam hr'
    refine ⟨framebuffer_events engine env.ctxDims ++ l, ?_⟩
    show framebuffer_events engine env.ctxDims ++
      (draw_body env (fb_step engine env.ctxDims) cam).events = _
    rw [hl, List.append_assoc]

/-- Witness for C7 at a concrete environment in which `UpdateStats` raises a
`RuntimeError`. -/
theorem view_draw_stats_runtime_error_swallowed_witness :
    sampleDrawEnvStatsRT.statsRes = .error ⟨.runtimeError, "stats down"⟩ ∧
    ((view_draw sampleDrawEnvStatsRT sampleEngineRunning "cam1").raised = none ∧
     Event.printMsg ("[Engine/Viewport] Error during UpdateStats(): " ++
         (Exc.mk .runtimeError "stats down").msg) ∈
       (view_draw sampleDrawEnvStatsRT sampleEngineRunning "cam1").events ∧
     Event.waitNewFrame ∈ (view_draw sampleDrawEnvStatsRT sampleEngineRunning "cam1").events ∧
     Event.fbUpdate ∈ (view_draw sampleDrawEnvStatsRT sampleEngineRunning "cam1").events ∧
     (∃ l, (view_draw sampleDrawEnvStatsRT sampleEngineRunning "cam1").events =
        l ++ [Event.tagRedraw])) :=
  ⟨rfl,
   view_draw_stats_runtime_error_swallowed sampleDrawEnvStatsRT sampleEngineRunning "cam1"
     ⟨.runtimeError, "stats down"⟩ rfl rfl rfl rfl rfl rfl rfl⟩

/-- C8: when `view_update` observes no session and the guard is clear and the
synchronous creation succeeds, it builds the exporter and session, sets the
guard and schedules the asynchronous start as its final action, with
`starting_session = true` immediately after; and after a successful
`start_session` the render start timestamp is recorded and
`starting_session` is false. -/
theorem view_update_idle_to_starting_to_running (uenv : UpdateEnv) (senv : StartEnv)
    (engine : Engine) (changes : Option Nat) (ex s : Nat)
    (hg : engine.starting_session = false) (hs : engine.session = none)
    (hex : uenv.exporterRes = .ok ex) (hcs : uenv.createSessionRes = .ok s)
    (hst : senv.startRes = .ok ()) :
    (view_update uenv engine changes).engine.starting_session = true ∧
    (view_update uenv engine changes).engine.session = some s ∧
    (view_update uenv engine changes).engine.exporter = some ex ∧
    (view_update uenv engine changes).events.getLast? = some Event.scheduleStart ∧
    (view_update uenv engine changes).raised = none ∧
    (start_session senv (view_update uenv engine changes).engine).engine.starting_session
      = false ∧
    (start_session senv (view_update uenv engine changes).engine).engine.viewport_start_time
      = some senv.now := by
  refine ⟨?_, ?_, ?_, ?_, ?_, ?_, ?_⟩ <;>
    cases hfbb : engine.framebuffer.isSome <;>
      simp [view_update, hg, hs, hex, hcs, hfbb, start_session, hst]

/-- Witness for C8 at a concrete Idle engine with a successful creation and a
successful asynchronous start. -/
theorem view_update_idle_to_starting_to_running_witness :
    sampleEngineIdle.starting_session = false ∧ sampleEngineIdle.session = none ∧
    ((view_update sampleUpdateEnvOk sampleEngineIdle none).engine.starting_session = true ∧
     (view_update sampleUpdateEnvOk sampleEngineIdle none).engine.session = some 3 ∧
     (view_update sampleUpdateEnvOk sampleEngineIdle none).engine.exporter = some 7 ∧
     (view_update sampleUpdateEnvOk sampleEngineIdle none).events.getLast?
       = some Event.scheduleStart ∧
     (view_update sampleUpdateEnvOk sampleEngineIdle none).raised = none ∧
     (start_session sampleStartEnvOk
        (view_update sampleUpdateEnvOk sampleEngineIdle none).engine).engine.starting_session
       = false ∧
     (start_session sampleStartEnvOk
        (view_update sampleUpdateEnvOk sampleEngineIdle none).engine).engine.viewport_start_time
       = some sampleStartEnvOk.now) :=
  ⟨rfl, rfl,
   view_update_idle_to_starting_to_running sampleUpdateEnvOk sampleStartEnvOk sampleEngineIdle
     none 7 3 rfl rfl rfl rfl rfl⟩

/-- C9: if no domain object is selected or the file path is empty,
`sub_export` does not raise: it logs a warning naming the node and its tree
and returns constant-black texture properties (type `constfloat3` with value
`[0, 0, 0]`) instead of a density grid. -/
theorem sub_export_no_domain_constant_black (env : VDBEnv) (node : OpenVDBNode)
    (sock lux : String)
    (h : node.domain = none ∨ node.file_path = "") :
    (sub_export env node sock lux).raised = none ∧
    Event.addWarning ("Node \"" ++ node.name ++ "\" in tree \"" ++ node.id_data_name ++
        "\": " ++ "No Domain object selected.") ∈ (sub_export env node sock lux).events ∧
    (sub_export env node sock lux).props =
      some (lux, [("type", PropVal.str "constfloat3"),
                  ("value", PropVal.intList [0, 0, 0])]) := by
  rcases h with h | h <;> simp [sub_export, create_props, h]

/-- Witness for C9 at a concrete node with no domain object selected. -/
theorem sub_export_no_domain_constant_black_witness :
    (sampleVDBNode.domain = none ∨ sampleVDBNode.file_path = "") ∧
    ((sub_export sampleVDBEnv sampleVDBNode "density" "tex1").raised = none ∧
     Event.addWarning ("Node \"" ++ sampleVDBNode.name ++ "\" in tree \"" ++
         sampleVDBNode.id_data_name ++ "\": " ++ "No Domain object selected.") ∈
       (sub_export sampleVDBEnv sampleVDBNode "density" "tex1").events ∧
     (sub_export sampleVDBEnv sampleVDBNode "density" "tex1").props =
       some ("tex1", [("type", PropVal.str "constfloat3"),
                      ("value", PropVal.intList [0, 0, 0])])) :=
  ⟨Or.inl rfl,
   sub_export_no_domain_constant_black sampleVDBEnv sampleVDBNode "density" "tex1"
     (Or.inl rfl)⟩

lemma no_edit_events_in_fb (engine : Engine) (dims : FBDims) :
    Event.beginSceneEdit ∉ framebuffer_events engine dims ∧
    Event.endSceneEdit ∉ framebuffer_events engine dims ∧
    ∀ p, Event.parseCamera p ∉ framebuffer_events engine dims := by
  unfold framebuffer_events
  split <;> simp

lemma no_edit_events_in_stats (env : DrawEnv) (cam : String) :
    Event.beginSceneEdit ∉ (draw_stats_and_frame env cam).events ∧
    Event.endSceneEdit ∉ (draw_stats_and_frame env cam).events ∧
    ∀ p, Event.parseCamera p ∉ (draw_stats_and_frame env cam).events := by
  rcases hsr : env.statsRes with e | u
  · rcases hk : e.kind <;> simp [draw_stats_and_frame, hsr, hk]
  · simp [draw_stats_and_frame, hsr]

lemma view_draw_no_edit_events_of_eq (env : DrawEnv) (engine : Engine) (cam : String)
    (hc : env.camProps = cam) :
    Event.beginSceneEdit ∉ (view_draw env engine cam).events ∧
    Event.endSceneEdit ∉ (view_draw env engine cam).events ∧
    ∀ p, Event.parseCamera p ∉ (view_draw env engine cam).events := by
  have hfbev := no_edit_events_in_fb engine env.ctxDims
  have hdce : draw_camera_edit env cam = draw_stats_and_frame env cam := by
    simp [draw_camera_edit, hc]
  have hbody : Event.beginSceneEdit ∉ (draw_body env (fb_step engine env.ctxDims) cam).events ∧
      Event.endSceneEdit ∉ (draw_body env (fb_step engine env.ctxDims) cam).events ∧
      ∀ p, Event.parseCamera p ∉ (draw_body env (fb_step engine env.ctxDims) cam).events := by
    have hstats := no_edit_events_in_stats env cam
    by_cases hcond : ((fb_step engine env.ctxDims).session.isSome &&
        !(fb_step engine env.ctxDims).starting_session) = true
    · rw [draw_body_eq_pos env (fb_step engine env.ctxDims) cam hcond, hdce]
      cases hn : (draw_stats_and_frame env cam).raised.isNone <;>
        simp [hn, hstats.1, hstats.2.1]
      · exact hstats.2.2
      · exact hstats.2.2
    · rw [draw_body_eq_neg env (fb_step engine env.ctxDims) cam hcond]
      simp
  refine ⟨?_, ?_, ?_⟩
  · show Event.beginSceneEdit ∉ framebuffer_events engine env.ctxDims ++
      (draw_body env (fb_step engine env.ctxDims) cam).events
    rw [List.mem_append]
    rintro (h | h)
    · exact hfbev.1 h
    · exact hbody.1 h
  · show Event.endSceneEdit ∉ framebuffer_events engine env.ctxDims ++
      (draw_body env (fb_step engine env.ctxDims) cam).events
    rw [List.mem_append]
    rintro (h | h)
    · exact hfbev.2.1 h
    · exact hbody.2.1 h
  · intro p
    show Event.parseCamera p ∉ framebuffer_events engine env.ctxDims ++
      (draw_body env (fb_step engine env.ctxDims) cam).events
    rw [List.mem_append]
    rintro (h | h)
    · exact hfbev.2.2 p h
    · exact hbody.2.2 p h

/-- C10: in `view_draw`, the camera-snapshot cache (`last_cam_str`) is
assigned the new snapshot before the scene-edit sequence is attempted; hence
if `BeginSceneEdit`, `Parse` or `EndSceneEdit` raises, the returned cache
already holds the failed snapshot, and a subsequent redraw with an unchanged
camera issues no retry of that edit. -/
theorem view_draw_edit_failure_no_retry (env env2 : DrawEnv) (engine : Engine)
    (cam : String) (e : Exc)
    (hs : engine.session.isSome = true) (hg : engine.starting_session = false)
    (hcam : env.camProps ≠ cam)
    (hfail : env.beginRes = .error e ∨
             (env.beginRes = .ok () ∧ env.parseRes = .error e) ∨
             (env.beginRes = .ok () ∧ env.parseRes = .ok () ∧ env.endRes = .error e)) :
    (view_draw env engine cam).last_cam = env.camProps ∧
    (view_draw env engine cam).raised = some e ∧
    (env2.camProps = env.camProps →
       Event.beginSceneEdit ∉
         (view_draw env2 (view_draw env engine cam).engine
           (view_draw env engine cam).last_cam).events ∧
       Event.endSceneEdit ∉
         (view_draw env2 (view_draw env engine cam).engine
           (view_draw env engine cam).last_cam).events ∧
       ∀ p, Event.parseCamera p ∉
         (view_draw env2 (view_draw env engine cam).engine
           (view_draw env engine cam).last_cam).events) := by
  have hcond : ((fb_step engine env.ctxDims).session.isSome &&
      !(fb_step engine env.ctxDims).starting_session) = true := by
    rw [fb_step_session, fb_step_starting, hs, hg]; rfl
  have hdce : (draw_camera_edit env cam).last_cam = env.camProps ∧
      (draw_camera_edit env cam).raised = some e := by
    rcases hfail with hb | ⟨hb, hp⟩ | ⟨hb, hp, he⟩
    · simp [draw_camera_edit, hcam, hb]
    · simp [draw_camera_edit, hcam, hb, hp]
    · simp [draw_camera_edit, hcam, hb, hp, he]
  have hlc : (view_draw env engine cam).last_cam = env.camProps := by
    show (draw_body env (fb_step engine env.ctxDims) cam).last_cam = env.camProps
    rw [draw_body_eq_pos env (fb_step engine env.ctxDims) cam hcond]
    exact hdce.1
  refine ⟨hlc, ?_, ?_⟩
  · show (draw_body env (fb_step engine env.ctxDims) cam).raised = some e
    rw [draw_body_eq_pos env (fb_step engine env.ctxDims) cam hcond]
    exact hdce.2
  · intro h2
    rw [hlc]
    exact view_draw_no_edit_events_of_eq env2 (view_draw env engine cam).engine
      env.camProps h2

/-- Witness for C10 at a concrete running engine where `BeginSceneEdit`
raises, followed by a redraw with the camera unchanged. -/
theorem view_draw_edit_failure_no_retry_witness :
    sampleEngineRunning.session.isSome = true ∧
    sampleDrawEnvEditFail.camProps ≠ "" ∧
    sampleDrawEnvEditFail.beginRes = .error ⟨.other, "edit fail"⟩ ∧
    sampleDrawEnvOk.camProps = sampleDrawEnvEditFail.camProps ∧
    ((view_draw sampleDrawEnvEditFail sampleEngineRunning "").last_cam =
       sampleDrawEnvEditFail.camProps ∧
     (view_draw sampleDrawEnvEditFail sampleEngineRunning "").raised =
       some ⟨.other, "edit fail"⟩ ∧
     (Event.beginSceneEdit ∉
        (view_draw sampleDrawEnvOk
          (view_draw sampleDrawEnvEditFail sampleEngineRunning "").engine
          (view_draw sampleDrawEnvEditFail sampleEngineRunning "").last_cam).events ∧
      Event.endSceneEdit ∉
        (view_draw sampleDrawEnvOk
          (view_draw sampleDrawEnvEditFail sampleEngineRunning "").engine
          (view_draw sampleDrawEnvEditFail sampleEngineRunning "").last_cam).events ∧
      ∀ p, Event.parseCamera p ∉
        (view_draw sampleDrawEnvOk
          (view_draw sampleDrawEnvEditFail sampleEngineRunning "").engine
          (view_draw sampleDrawEnvEditFail sampleEngineRunning "").last_cam).events)) :=
  ⟨rfl, by decide, rfl, rfl,
   (view_draw_edit_failure_no_retry sampleDrawEnvEditFail sampleDrawEnvOk sampleEngineRunning
      "" ⟨.other, "edit fail"⟩ rfl rfl (by decide) (Or.inl rfl)).1,
   (view_draw_edit_failure_no_retry sampleDrawEnvEditFail sampleDrawEnvOk sampleEngineRunning
      "" ⟨.other, "edit fail"⟩ rfl rfl (by decide) (Or.inl rfl)).2.1,
   (view_draw_edit_failure_no_retry sampleDrawEnvEditFail sampleDrawEnvOk sampleEngineRunning
      "" ⟨.other, "edit fail"⟩ rfl rfl (by decide) (Or.inl rfl)).2.2 rfl⟩

end BlendLuxCore
